import Mathlib

/-!
Verification of the resilience layer of the Yugioh collection manager
(`backend/src/services/`): the multi-tier cache (`cache.py`), the rate
limiter and request queue (`rate_limiter.py`), and the retry / error
handling / fallback machinery (`error_handler.py`).

Conventions of the embedding:
* wall-clock timestamps (`time.time()`, `datetime.now()`) are rationals;
  the two Python clock views denote the same instant and are modelled by a
  single `now : ℚ` parameter threaded explicitly;
* Python dictionaries keyed by strings become functions `String → _` with
  an explicit default (mirroring `defaultdict`) or `String → Option _`;
* fallible operations return `Except`/`Option`; logging calls are dropped.
-/

/-! ## Multi-tier cache (`services/cache.py`) -/

/-- One cache entry as stored by `CacheService`: the payload together with
its absolute expiry instant (`expires_at`). -/
structure CacheEntry (α : Type) where
  data : α
  expires_at : ℚ
deriving DecidableEq

/-- State of `CacheService`.  The in-process tier is `memory_cache`; the
on-disk tier (`diskcache`) is modelled as a key → entry map whose `get`
self-expires (the library returns `None` for an entry whose lifetime has
passed, matching the spec invariant that no tier returns an entry once
`now >= expires_at`).  The Redis tier is `None` unless `initialize_redis`
succeeds; the model covers the default memory + disk configuration. -/
structure CacheService (α : Type) where
  memory_cache : String → Option (CacheEntry α)
  disk_cache : String → Option (CacheEntry α)
  default_ttl : ℚ

/-- Disk-tier half of `CacheService.get`: on a live disk hit the value is
promoted into the memory tier with `default_ttl` (per-entry remaining time
is not tracked across tiers), otherwise the lookup misses. -/
def CacheService.diskLookup {α : Type} (s : CacheService α) (key : String)
    (now : ℚ) : Option α × CacheService α :=
  match s.disk_cache key with
  | some entry =>
    if now < entry.expires_at then
      (some entry.data,
        { s with memory_cache := fun k =>
            if k = key then some ⟨entry.data, now + s.default_ttl⟩
            else s.memory_cache k })
    else (none, s)
  | none => (none, s)

/-- `CacheService.get` (cache.py:66-107): check the memory tier first — a
hit is returned only while `expires_at > now`, an expired entry is removed
— then fall through to the disk tier. -/
def CacheService.get {α : Type} (s : CacheService α) (key : String)
    (now : ℚ) : Option α × CacheService α :=
  match s.memory_cache key with
  | some entry =>
    if now < entry.expires_at then (some entry.data, s)
    else
      let s1 : CacheService α :=
        { s with memory_cache := fun k =>
            if k = key then none else s.memory_cache k }
      s1.diskLookup key now
  | none => s.diskLookup key now

/-- `CacheService.set` (cache.py:109-131): write the value to every tier
with expiry `now + ttl`, where a missing `ttl` defaults to `default_ttl`. -/
def CacheService.set {α : Type} (s : CacheService α) (key : String)
    (value : α) (ttl : Option ℚ) (now : ℚ) : CacheService α :=
  let t := ttl.getD s.default_ttl
  { s with
    memory_cache := fun k =>
      if k = key then some ⟨value, now + t⟩ else s.memory_cache k,
    disk_cache := fun k =>
      if k = key then some ⟨value, now + t⟩ else s.disk_cache k }

/-- `CacheService.delete` (cache.py:133-150): remove the key from every
tier. -/
def CacheService.delete {α : Type} (s : CacheService α) (key : String) :
    CacheService α :=
  { s with
    memory_cache := fun k => if k = key then none else s.memory_cache k,
    disk_cache := fun k => if k = key then none else s.disk_cache k }

/-- A value returned by `get` at instant `now` came out of a tier entry
that was still live (`now < expires_at`). -/
def returnedFromLiveTier {α : Type} (s : CacheService α) (k : String)
    (now : ℚ) (v : α) : Prop :=
  (∃ e, s.memory_cache k = some e ∧ now < e.expires_at ∧ e.data = v) ∨
  (∃ e, s.disk_cache k = some e ∧ now < e.expires_at ∧ e.data = v)

lemma CacheService.get_set_self {α : Type} (s : CacheService α)
    (k : String) (v : α) (ttl t0 t1 : ℚ) :
    ((s.set k v (some ttl) t0).get k t1).1 =
      if t1 < t0 + ttl then some v else none := by
  by_cases h : t1 < t0 + ttl <;>
    simp [CacheService.set, CacheService.get, CacheService.diskLookup, h]

lemma CacheService.get_live {α : Type} (s : CacheService α) (k : String)
    (now : ℚ) (v : α) (s2 : CacheService α)
    (h : s.get k now = (some v, s2)) : returnedFromLiveTier s k now v := by
  simp only [CacheService.get, CacheService.diskLookup] at h
  unfold returnedFromLiveTier
  split at h
  next entry hm =>
    split at h
    next hlive =>
      have hv : some entry.data = some v := congrArg Prod.fst h
      exact Or.inl ⟨entry, hm, hlive, Option.some.inj hv⟩
    next hlive =>
      split at h
      next de hd =>
        split at h
        next hdl =>
          have hv : some de.data = some v := congrArg Prod.fst h
          exact Or.inr ⟨de, hd, hdl, Option.some.inj hv⟩
        next hdl => simp at h
      next hd => simp at h
  next hm =>
    split at h
    next de hd =>
      split at h
      next hdl =>
        have hv : some de.data = some v := congrArg Prod.fst h
        exact Or.inr ⟨de, hd, hdl, Option.some.inj hv⟩
      next hdl => simp at h
    next hd => simp at h

/-- C1: a `get(k)` at time `t1` after `set(k, v, ttl)` at time `t0`, with
no intervening operation on `k`, returns `v` exactly while `t1 - t0 < ttl`
and is absent once `t1 - t0 ≥ ttl`; moreover any value a `get` returns, in
any state, came from a tier entry with `now < expires_at`. -/
theorem cache_ttl_expiry :
    (∀ (s : CacheService ℕ) (k : String) (v : ℕ) (ttl t0 t1 : ℚ),
      ((s.set k v (some ttl) t0).get k t1).1 =
        if t1 < t0 + ttl then some v else none) ∧
    (∀ (s : CacheService ℕ) (k : String) (now : ℚ) (v : ℕ)
        (s2 : CacheService ℕ),
      s.get k now = (some v, s2) → returnedFromLiveTier s k now v) :=
  ⟨fun s k v ttl t0 t1 => CacheService.get_set_self s k v ttl t0 t1,
   fun s k now v s2 h => CacheService.get_live s k now v s2 h⟩

/-- A concrete instantiation of the second half of `cache_ttl_expiry`:
a memory tier holding `7` for key `"k"` until time `10` yields `7` at
time `0`, and the returned value indeed comes from a live tier entry. -/
theorem cache_ttl_expiry_witness :
    returnedFromLiveTier
      (⟨fun _ => some ⟨7, 10⟩, fun _ => none, 3600⟩ : CacheService ℕ)
      "k" 0 7 :=
  cache_ttl_expiry.2 ⟨fun _ => some ⟨7, 10⟩, fun _ => none, 3600⟩ "k" 0 7
    ⟨fun _ => some ⟨7, 10⟩, fun _ => none, 3600⟩ rfl

/-! ## Search cache keys (`CacheService._generate_cache_key`) -/

/-- Values a search-parameter dictionary can hold (the JSON-serializable
payloads passed as `**search_params`). -/
inductive JsonValue where
  | str (s : String)
  | num (n : Int)
  | boolean (b : Bool)
  | null
deriving DecidableEq

/-- `json.dumps` rendering of one value. -/
def JsonValue.dumps : JsonValue → String
  | .str s => "\"" ++ s ++ "\""
  | .num n => toString n
  | .boolean true => "true"
  | .boolean false => "false"
  | .null => "null"

/-- `json.dumps` rendering of one `(key, value)` tuple (tuples serialize
as two-element JSON arrays). -/
def dumpsPair (p : String × JsonValue) : String :=
  "[\"" ++ p.1 ++ "\", " ++ p.2.dumps ++ "]"

/-- `json.dumps` rendering of the sorted parameter list. -/
def dumpsPairs (l : List (String × JsonValue)) : String :=
  "[" ++ String.intercalate ", " (l.map dumpsPair) ++ "]"

/-- One hexadecimal digit. -/
def hexDigit (n : ℕ) : Char :=
  if n < 10 then Char.ofNat (48 + n) else Char.ofNat (87 + n)

/-- Big-endian hexadecimal rendering with a fixed digit count. -/
def toHexAux : ℕ → ℕ → List Char → List Char
  | 0, _, acc => acc
  | d + 1, n, acc => toHexAux d (n / 16) (hexDigit (n % 16) :: acc)

/-- The `hashlib.md5(...).hexdigest()` step, modelled as a fixed
deterministic 128-bit digest of the serialized string rendered as 32 hex
characters (the implementation of MD5 lives outside this repository; every
property proved here depends only on the digest being a function of the
serialized string). -/
def md5hex (s : String) : String :=
  String.mk (toHexAux 32
    (s.data.foldl (fun acc c => (acc * 31 + c.toNat) % 2 ^ 128) 5381) [])

/-- Key order used by `sorted(kwargs.items())`: Python sorts the tuples
lexicographically, which on distinct keys reduces to comparing keys. -/
def pairLE (a b : String × JsonValue) : Bool := decide (a.1 ≤ b.1)

/-- `sorted(kwargs.items())`. -/
def sortParams (l : List (String × JsonValue)) : List (String × JsonValue) :=
  l.mergeSort pairLE

/-- `CacheService._generate_cache_key` (cache.py:58-64): sort the keyword
arguments, serialize, hash, and make the key `"{prefix}:{hash}"`. -/
def generate_cache_key (pre : String)
    (params : List (String × JsonValue)) : String :=
  pre ++ ":" ++ md5hex (dumpsPairs (sortParams params))

/-- `CacheService.cache_card_search_results` (cache.py:180-185). -/
def cache_card_search_results {α : Type} (s : CacheService α)
    (params : List (String × JsonValue)) (results : α) (now : ℚ) :
    CacheService α :=
  s.set (generate_cache_key "card_search" params) results (some 1800) now

/-- `CacheService.get_card_search_results` (cache.py:173-178). -/
def get_card_search_results {α : Type} (s : CacheService α)
    (params : List (String × JsonValue)) (now : ℚ) :
    Option α × CacheService α :=
  s.get (generate_cache_key "card_search" params) now

lemma pairLE_trans (a b c : String × JsonValue) (hab : pairLE a b = true)
    (hbc : pairLE b c = true) : pairLE a c = true := by
  simp only [pairLE, decide_eq_true_eq] at *
  exact le_trans hab hbc

lemma pairLE_total (a b : String × JsonValue) :
    (pairLE a b || pairLE b a) = true := by
  rcases le_total a.1 b.1 with h | h <;> simp [pairLE, h]

lemma sortParams_eq_of_perm (p1 p2 : List (String × JsonValue))
    (hp : p1.Perm p2) (hnd : (p1.map Prod.fst).Nodup) :
    sortParams p1 = sortParams p2 := by
  have hperm : (sortParams p1).Perm (sortParams p2) :=
    ((p1.mergeSort_perm pairLE).trans hp).trans
      (p2.mergeSort_perm pairLE).symm
  have hs1 := List.sorted_mergeSort pairLE_trans pairLE_total p1
  have hs2 := List.sorted_mergeSort pairLE_trans pairLE_total p2
  refine List.Perm.eq_of_sorted ?_ hs1 hs2 hperm
  intro a b ha hb hab hba
  have ha1 : a ∈ p1 := (p1.mergeSort_perm pairLE).subset ha
  have hb1 : b ∈ p1 := hp.symm.subset ((p2.mergeSort_perm pairLE).subset hb)
  have hkey : a.1 = b.1 := by
    simp only [pairLE, decide_eq_true_eq] at hab hba
    exact le_antisymm hab hba
  exact List.inj_on_of_nodup_map hnd ha1 hb1 hkey

/-- C4: two search-parameter dictionaries with exactly the same key/value
pairs (a permutation, keys distinct) derive the same cache key, so results
cached under the one are found when looking up with the other. -/
theorem cache_key_order_independent {α : Type} (pre : String)
    (p1 p2 : List (String × JsonValue))
    (hp : p1.Perm p2) (hnd : (p1.map Prod.fst).Nodup) :
    generate_cache_key pre p1 = generate_cache_key pre p2 ∧
    ∀ (s : CacheService α) (results : α) (t0 t1 : ℚ),
      t1 < t0 + 1800 →
      (get_card_search_results (cache_card_search_results s p1 results t0)
          p2 t1).1 = some results := by
  have hkeys : ∀ q : String,
      generate_cache_key q p1 = generate_cache_key q p2 := by
    intro q
    unfold generate_cache_key
    rw [sortParams_eq_of_perm p1 p2 hp hnd]
  refine ⟨hkeys pre, ?_⟩
  intro s results t0 t1 ht
  unfold get_card_search_results cache_card_search_results
  rw [← hkeys "card_search", CacheService.get_set_self, if_pos ht]

/-- A concrete instantiation of C4: the key for
`{name: "dragon", limit: 10}` equals the key for
`{limit: 10, name: "dragon"}`. -/
theorem cache_key_order_independent_witness :
    generate_cache_key "card_search"
        [("name", JsonValue.str "dragon"), ("limit", JsonValue.num 10)] =
      generate_cache_key "card_search"
        [("limit", JsonValue.num 10), ("name", JsonValue.str "dragon")] :=
  (cache_key_order_independent (α := ℕ) "card_search"
    [("name", JsonValue.str "dragon"), ("limit", JsonValue.num 10)]
    [("limit", JsonValue.num 10), ("name", JsonValue.str "dragon")]
    (by decide) (by decide)).1

/-! ## Retry and error classification (`services/error_handler.py`) -/

/-- Exceptions the error handler distinguishes, with the `httpx` exception
hierarchy flattened into constructors (`ConnectTimeout`/`ReadTimeout`
subclass `TimeoutException`; `ConnectError` subclasses `NetworkError`;
the builtin `ConnectionError` is unrelated to the httpx classes). -/
inductive PyExc where
  | timeoutException
  | connectTimeout
  | readTimeout
  | networkError
  | connectError
  | connectionError
  | httpStatusError (status : ℕ)
  | otherError (m : String)
deriving DecidableEq

/-- The exception classes named in `RetryConfig.retryable_exceptions` and
in the `isinstance` checks of the handler. -/
inductive ExcClass where
  | TimeoutException
  | ConnectTimeout
  | ReadTimeout
  | NetworkError
  | ConnectionErrorCls
  | HTTPStatusErrorCls
deriving DecidableEq

/-- Python `isinstance`, encoding the subclass relation between the
modelled exception types. -/
def isinstance : PyExc → ExcClass → Bool
  | .timeoutException, .TimeoutException => true
  | .connectTimeout, .TimeoutException => true
  | .connectTimeout, .ConnectTimeout => true
  | .readTimeout, .TimeoutException => true
  | .readTimeout, .ReadTimeout => true
  | .networkError, .NetworkError => true
  | .connectError, .NetworkError => true
  | .connectionError, .ConnectionErrorCls => true
  | .httpStatusError _, .HTTPStatusErrorCls => true
  | _, _ => false

/-- `RetryConfig` (error_handler.py:13-44) with the constructor's default
values; the `None`-guarded list defaults are the materialized defaults. -/
structure RetryConfig where
  max_attempts : ℕ := 3
  base_delay : ℚ := 1
  max_delay : ℚ := 60
  exponential_base : ℚ := 2
  jitter : Bool := true
  retryable_status_codes : List ℕ := [500, 502, 503, 504, 429]
  retryable_exceptions : List ExcClass :=
    [.TimeoutException, .ConnectTimeout, .ReadTimeout, .NetworkError,
     .ConnectionErrorCls]
deriving DecidableEq

/-- `ErrorHandler.retry_configs` (error_handler.py:56-60) together with the
`dict.get(operation_type, RetryConfig())` default used by the retry loop. -/
def retry_configs : String → RetryConfig := fun operation_type =>
  if operation_type = "api_request" then { max_attempts := 3, base_delay := 1 }
  else if operation_type = "cache_operation" then
    { max_attempts := 2, base_delay := 1/2 }
  else if operation_type = "database_operation" then
    { max_attempts := 3, base_delay := 2 }
  else {}

/-- `ErrorHandler.should_retry` (error_handler.py:62-73): retry when the
exception is an instance of a retryable class, else when it is an
`HTTPStatusError` whose status is in the retryable set. -/
def should_retry (error : PyExc) (config : RetryConfig) : Bool :=
  if config.retryable_exceptions.any (fun c => isinstance error c) then true
  else
    match error with
    | .httpStatusError s => config.retryable_status_codes.contains s
    | _ => false

/-- `ErrorHandler.calculate_delay` (error_handler.py:75-86); the value of
`random.random()` is the parameter `u ∈ [0, 1)`. -/
def calculate_delay (attempt : ℕ) (config : RetryConfig) (u : ℚ) : ℚ :=
  let delay := config.base_delay * config.exponential_base ^ (attempt - 1)
  let capped := min delay config.max_delay
  if config.jitter then capped * (1/2 + u * (1/2)) else capped

/-- The `for attempt in range(1, max_attempts + 1)` loop of
`retry_with_backoff` (error_handler.py:102-142).  The operation is a
function from the 1-based invocation number to its outcome; the returned
pair is the raised/returned result together with the number of
invocations performed.  `Except.error none` is the `raise last_error`
with `last_error = None` (only reachable when `max_attempts = 0`).
The backoff sleeps and the logging/stat updates do not affect the result
and are dropped. -/
def retryGo {α : Type} (op : ℕ → Except PyExc α) (config : RetryConfig) :
    ℕ → ℕ → Option PyExc → Except (Option PyExc) α × ℕ
  | 0, _, last => (.error last, 0)
  | fuel + 1, attempt, _ =>
    match op attempt with
    | .ok v => (.ok v, 1)
    | .error e =>
      if should_retry e config = false ∨ attempt = config.max_attempts then
        (.error (some e), 1)
      else
        let r := retryGo op config fuel (attempt + 1) (some e)
        (r.1, r.2 + 1)

/-- `ErrorHandler.retry_with_backoff` (error_handler.py:88-142):
`config = custom_config or retry_configs.get(operation_type,
RetryConfig())`, then the attempt loop starting at attempt 1. -/
def retry_with_backoff {α : Type} (op : ℕ → Except PyExc α)
    (operation_type : String) (custom_config : Option RetryConfig) :
    Except (Option PyExc) α × ℕ :=
  let config := custom_config.getD (retry_configs operation_type)
  retryGo op config config.max_attempts 1 none

lemma retryGo_all_fail {α : Type} (config : RetryConfig)
    (op : ℕ → Except PyExc α) (es : ℕ → PyExc)
    (hop : ∀ i, op i = .error (es i))
    (hr : ∀ i, should_retry (es i) config = true) :
    ∀ fuel attempt last, 1 ≤ fuel →
      attempt + fuel = config.max_attempts + 1 →
      retryGo op config fuel attempt last =
        (.error (some (es config.max_attempts)), fuel) := by
  intro fuel
  induction fuel with
  | zero => intro attempt last h1; omega
  | succ f ih =>
    intro attempt last h1 h2
    unfold retryGo
    rw [hop attempt]
    dsimp only
    rcases Nat.eq_zero_or_pos f with hf | hf
    · subst hf
      have ha : attempt = config.max_attempts := by omega
      rw [if_pos (Or.inr ha), ha]
    · have ha : attempt ≠ config.max_attempts := by omega
      rw [if_neg (by simp [hr attempt, ha]),
        ih (attempt + 1) (some (es attempt)) (by omega) (by omega)]

/-- C2: with `max_attempts = n ≥ 1`, an operation that raises a retryable
error on every invocation is invoked exactly `n` times and the loop then
raises the error observed on the final invocation; an operation whose
first invocation raises a non-retryable error is invoked exactly once and
that error is raised. -/
theorem retry_attempt_counts {α : Type} (config : RetryConfig)
    (operation_type : String) (h1 : 1 ≤ config.max_attempts) :
    (∀ (op : ℕ → Except PyExc α) (es : ℕ → PyExc),
      (∀ i, op i = .error (es i)) →
      (∀ i, should_retry (es i) config = true) →
      retry_with_backoff op operation_type (some config) =
        (.error (some (es config.max_attempts)), config.max_attempts)) ∧
    (∀ (op : ℕ → Except PyExc α) (e : PyExc),
      op 1 = .error e → should_retry e config = false →
      retry_with_backoff op operation_type (some config) =
        (.error (some e), 1)) := by
  constructor
  · intro op es hop hr
    unfold retry_with_backoff
    exact retryGo_all_fail config op es hop hr config.max_attempts 1 none
      h1 (by omega)
  · intro op e hop hr
    unfold retry_with_backoff
    obtain ⟨f, hf⟩ : ∃ f, config.max_attempts = f + 1 :=
      ⟨config.max_attempts - 1, by omega⟩
    simp only [Option.getD]
    rw [hf]
    unfold retryGo
    rw [hop]
    dsimp only
    rw [if_pos (Or.inl hr)]

/-- A concrete instantiation of C2 at the default configuration
(`max_attempts = 3`): a connection error on every invocation yields three
invocations then that error; a 404 status error yields one invocation. -/
theorem retry_attempt_counts_witness :
    retry_with_backoff (α := ℕ) (fun _ => .error .connectionError)
        "api_request" (some {}) =
      (.error (some PyExc.connectionError), 3) ∧
    retry_with_backoff (α := ℕ) (fun _ => .error (.httpStatusError 404))
        "api_request" (some {}) =
      (.error (some (PyExc.httpStatusError 404)), 1) :=
  ⟨(retry_attempt_counts {} "api_request" (by decide)).1
      (fun _ => .error .connectionError) (fun _ => .connectionError)
      (fun _ => rfl) (fun _ => rfl),
   (retry_attempt_counts {} "api_request" (by decide)).2
      (fun _ => .error (.httpStatusError 404)) (.httpStatusError 404)
      rfl (by decide)⟩

/-- The standardized error response dictionary built by
`create_standardized_error` (error_handler.py:181-188); the wall-clock
`timestamp` and the log-level-dependent `details` field carry no
classification content and are omitted. -/
structure StandardizedError where
  error : String
  message : String
  operation : String
  retryable : Bool
deriving DecidableEq

/-- The `default_messages` table (error_handler.py:154-162). -/
def default_messages : String → String
  | "network" =>
    "Unable to connect to the service. Please check your internet connection."
  | "timeout" => "The request took too long to complete. Please try again."
  | "rate_limit" =>
    "Too many requests. Please wait a moment before trying again."
  | "not_found" => "The requested resource was not found."
  | "server_error" =>
    "An internal server error occurred. Please try again later."
  | "validation" => "The provided data is invalid."
  | _ => "An unexpected error occurred. Please try again."

/-- The `error_type` chain of `create_standardized_error`
(error_handler.py:165-179): `isinstance` checks for the timeout and
network classes first, then the status-code dispatch for
`HTTPStatusError`, else `"unknown"`. -/
def classifyError (error : PyExc) : String :=
  if isinstance error .TimeoutException then "timeout"
  else if isinstance error .NetworkError then "network"
  else
    match error with
    | .httpStatusError s =>
      if s = 404 then "not_found"
      else if s = 429 then "rate_limit"
      else if 500 ≤ s ∧ s < 600 then "server_error"
      else "unknown"
    | _ => "unknown"

/-- `ErrorHandler.create_standardized_error` (error_handler.py:144-188).
The Python `error_code or error_type` / `user_message or default` fall
through on `None` (modelled by `Option`). -/
def create_standardized_error (error : PyExc) (operation : String)
    (user_message : Option String) (error_code : Option String) :
    StandardizedError :=
  let error_type := classifyError error
  { error := error_code.getD error_type,
    message := user_message.getD (default_messages error_type),
    operation := operation,
    retryable := should_retry error {} }

/-- C8: without an override, the kind recorded by
`create_standardized_error` is decided by the status code when one is
available (404 → not_found, 429 → rate_limit, 5xx → server_error) and
otherwise by the exception type (timeout classes → timeout, network
classes → network, anything else → unknown); the `retryable` flag is the
`should_retry` classification at the default `RetryConfig`, i.e. the very
predicate the retry loop consults. -/
theorem standardized_error_classification :
    (∀ (operation : String) (s : ℕ),
      (create_standardized_error (.httpStatusError s) operation
          none none).error =
        if s = 404 then "not_found"
        else if s = 429 then "rate_limit"
        else if 500 ≤ s ∧ s < 600 then "server_error"
        else "unknown") ∧
    (∀ (operation : String) (e : PyExc), (∀ s, e ≠ .httpStatusError s) →
      (create_standardized_error e operation none none).error =
        if isinstance e .TimeoutException then "timeout"
        else if isinstance e .NetworkError then "network"
        else "unknown") ∧
    (∀ (operation : String) (e : PyExc)
        (user_message error_code : Option String),
      (create_standardized_error e operation
          user_message error_code).retryable = should_retry e {}) := by
  refine ⟨?_, ?_, ?_⟩
  · intro operation s
    simp [create_standardized_error, classifyError, isinstance]
  · intro operation e he
    cases e with
    | httpStatusError s => exact absurd rfl (he s)
    | _ => simp [create_standardized_error, classifyError, isinstance]
  · intro operation e user_message error_code
    rfl

/-- A concrete instantiation of C8: a builtin `ConnectionError` carries no
status code and is neither an httpx timeout nor an httpx network error, so
its kind is `"unknown"`, while its `retryable` flag is the retry loop's
classification (`true`, since `ConnectionError` is a retryable class). -/
theorem standardized_error_classification_witness :
    (create_standardized_error .connectionError "api_request"
        none none).error =
      (if isinstance .connectionError .TimeoutException then "timeout"
       else if isinstance .connectionError .NetworkError then "network"
       else "unknown") ∧
    (create_standardized_error .connectionError "api_request"
        none none).retryable = should_retry .connectionError {} :=
  ⟨standardized_error_classification.2.1 "api_request" .connectionError
      (fun _ h => PyExc.noConfusion h),
   standardized_error_classification.2.2 "api_request" .connectionError
      none none⟩

/-- C9: without jitter the computed delay is exactly
`min (base_delay * exponential_base ^ (attempt - 1)) max_delay`; with
jitter it is that capped value scaled by `0.5 + u * 0.5 ∈ [1/2, 1)`, hence
at least half the capped value and strictly below it (for positive
configuration values). -/
theorem backoff_delay_formula (attempt : ℕ) (config : RetryConfig) (u : ℚ)
    (h1 : 1 ≤ attempt) (hb : 0 < config.base_delay)
    (he : 0 < config.exponential_base) (hm : 0 < config.max_delay)
    (hu0 : 0 ≤ u) (hu1 : u < 1) :
    (config.jitter = false →
      calculate_delay attempt config u =
        min (config.base_delay * config.exponential_base ^ (attempt - 1))
          config.max_delay) ∧
    (config.jitter = true →
      calculate_delay attempt config u =
        min (config.base_delay * config.exponential_base ^ (attempt - 1))
            config.max_delay * (1/2 + u * (1/2)) ∧
      1/2 ≤ 1/2 + u * (1/2) ∧ 1/2 + u * (1/2) < 1 ∧
      min (config.base_delay * config.exponential_base ^ (attempt - 1))
          config.max_delay / 2 ≤ calculate_delay attempt config u ∧
      calculate_delay attempt config u <
        min (config.base_delay * config.exponential_base ^ (attempt - 1))
          config.max_delay) := by
  set capped :=
    min (config.base_delay * config.exponential_base ^ (attempt - 1))
      config.max_delay with hcapped
  have hc : 0 < capped :=
    lt_min (mul_pos hb (pow_pos he _)) hm
  constructor
  · intro hj
    simp [calculate_delay, hj, hcapped]
  · intro hj
    have hfac0 : (1/2 : ℚ) ≤ 1/2 + u * (1/2) := by nlinarith
    have hfac1 : 1/2 + u * (1/2) < 1 := by nlinarith
    have heq : calculate_delay attempt config u = capped * (1/2 + u * (1/2)) := by
      simp [calculate_delay, hj, hcapped]
    refine ⟨heq, hfac0, hfac1, ?_, ?_⟩
    · rw [heq]
      nlinarith
    · rw [heq]
      nlinarith

/-- A concrete instantiation of C9 at the default configuration, attempt 2
and `u = 1/4`: the jittered delay is `min (1 * 2^1) 60 * 5/8 = 5/4`, which
lies in `[capped/2, capped) = [1, 2)`. -/
theorem backoff_delay_formula_witness :
    calculate_delay 2 {} (1/4) = 5/4 ∧
    (1 : ℚ) ≤ calculate_delay 2 {} (1/4) ∧
    calculate_delay 2 {} (1/4) < 2 := by
  have h := (backoff_delay_formula 2 {} (1/4) (by norm_num) (by norm_num)
    (by norm_num) (by norm_num) (by norm_num) (by norm_num)).2 rfl
  rw [h.1]
  norm_num

/-! ## Fallback strategy and the safe wrapper (`error_handler.py`) -/

/-- A card of the hand-curated fallback list
(error_handler.py:225-261).  The Python dict field `def` is rendered
`defense` (Lean keyword). -/
structure Card where
  id : ℕ
  name : String
  ctype : String
  desc : String
  atk : ℕ
  defense : ℕ
  level : ℕ
  race : String
  cattribute : String
deriving DecidableEq

/-- `FallbackStrategy.get_popular_cards_fallback`
(error_handler.py:225-261): the hardcoded list of popular cards. -/
def get_popular_cards_fallback : List Card :=
  [⟨89631139, "Blue-Eyes White Dragon", "Normal Monster",
    "This legendary dragon is a powerful engine of destruction.",
    3000, 2500, 8, "Dragon", "LIGHT"⟩,
   ⟨46986414, "Dark Magician", "Normal Monster",
    "The ultimate wizard in terms of attack and defense.",
    2500, 2100, 7, "Spellcaster", "DARK"⟩,
   ⟨20721928, "Elemental HERO Sparkman", "Normal Monster",
    "A warrior of the light.",
    1600, 1400, 4, "Warrior", "LIGHT"⟩]

/-- Python truthiness of an optional list (`None` and `[]` are falsy). -/
def pyTruthy {α : Type} : Option (List α) → Bool
  | none => false
  | some [] => false
  | some (_ :: _) => true

/-- `str(error)` for the modelled exceptions (the precise rendering is
irrelevant to every claim; what matters is that the message embeds it). -/
def pyStr : PyExc → String
  | .timeoutException => "TimeoutException"
  | .connectTimeout => "ConnectTimeout"
  | .readTimeout => "ReadTimeout"
  | .networkError => "NetworkError"
  | .connectError => "ConnectError"
  | .connectionError => "ConnectionError"
  | .httpStatusError s => "HTTPStatusError " ++ toString s
  | .otherError m => m

/-- `str` of the exception propagated out of the retry loop (`none` is the
`raise None` TypeError, unreachable when `max_attempts ≥ 1`). -/
def pyStrOpt : Option PyExc → String
  | some e => pyStr e
  | none => "NoneType"

/-- The response dictionary built by
`FallbackStrategy.get_error_fallback_response`
(error_handler.py:271-277). -/
structure FallbackResponse where
  data : List Card
  count : ℕ
  error : String
  fallback : Bool
  cached : Bool
deriving DecidableEq

/-- `FallbackStrategy.get_error_fallback_response`
(error_handler.py:263-277): substitute the popular-cards list when the
operation is `"card_search"` and the caller supplied no default
(`fallback_data is None`), then build the degraded payload with the
Python-truthiness `or`/conditional on `fallback_data`. -/
def get_error_fallback_response (operation : String)
    (error : Option PyExc) (fallback_data : Option (List Card)) :
    FallbackResponse :=
  let fd := if operation = "card_search" ∧ fallback_data = none then
      some get_popular_cards_fallback
    else fallback_data
  { data := if pyTruthy fd then fd.getD [] else [],
    count := if pyTruthy fd then (fd.getD []).length else 0,
    error := "Primary operation failed: " ++ pyStrOpt error,
    fallback := true,
    cached := false }

/-- `safe_api_call` (error_handler.py:311-331): run the retry loop and on
any raised exception return the fallback response instead of
propagating. -/
def safe_api_call {α : Type} (func : ℕ → Except PyExc α)
    (operation_type : String) (fallback_data : Option (List Card)) :
    α ⊕ FallbackResponse :=
  match (retry_with_backoff func operation_type none).1 with
  | .ok v => .inl v
  | .error e =>
    .inr (get_error_fallback_response operation_type e fallback_data)

/-- C7: whenever the retry loop gives up with an error, `safe_api_call`
returns a fallback response rather than letting the exception escape; the
response carries `fallback = true`, `cached = false` and the error string
embedded, and for the `"card_search"` operation with no caller-supplied
default its data is the non-empty hand-curated popular-cards list. -/
theorem safe_api_call_never_raises {α : Type} (func : ℕ → Except PyExc α)
    (operation_type : String) (fallback_data : Option (List Card))
    (e : Option PyExc)
    (hfail : (retry_with_backoff func operation_type none).1 = .error e) :
    safe_api_call func operation_type fallback_data =
      .inr (get_error_fallback_response operation_type e fallback_data) ∧
    (get_error_fallback_response operation_type e fallback_data).fallback
      = true ∧
    (get_error_fallback_response operation_type e fallback_data).cached
      = false ∧
    (get_error_fallback_response operation_type e fallback_data).error =
      "Primary operation failed: " ++ pyStrOpt e ∧
    (operation_type = "card_search" → fallback_data = none →
      (get_error_fallback_response operation_type e fallback_data).data =
        get_popular_cards_fallback ∧
      (get_error_fallback_response operation_type e
        fallback_data).data ≠ []) := by
  refine ⟨?_, rfl, rfl, rfl, ?_⟩
  · unfold safe_api_call
    rw [hfail]
  · intro hop hfd
    subst hop
    subst hfd
    refine ⟨?_, ?_⟩ <;>
      simp [get_error_fallback_response, pyTruthy, get_popular_cards_fallback]

/-- A concrete instantiation of C7: a card search that raises a connection
error on every invocation exhausts the default three attempts, and the
caller receives the popular-cards fallback payload, not an exception. -/
theorem safe_api_call_never_raises_witness :
    safe_api_call (α := ℕ) (fun _ => .error .connectionError)
        "card_search" none =
      .inr (get_error_fallback_response "card_search"
        (some .connectionError) none) ∧
    (get_error_fallback_response "card_search"
        (some .connectionError) none).fallback = true ∧
    (get_error_fallback_response "card_search"
        (some .connectionError) none).data = get_popular_cards_fallback := by
  have h := safe_api_call_never_raises (α := ℕ)
    (fun _ => .error .connectionError) "card_search" none
    (some .connectionError) rfl
  exact ⟨h.1, h.2.1, (h.2.2.2.2 rfl rfl).1⟩

/-! ## Rate limiter (`services/rate_limiter.py`) -/

/-- State of `RateLimiter` (rate_limiter.py:17-37).  The `defaultdict`
maps are total functions with the default materialized (`[]` for windows,
`0` for failure counts); `backoff_until` membership is `Option`. -/
structure RateLimiter where
  requests_per_minute : ℕ := 60
  burst_limit : ℕ := 10
  backoff_factor : ℚ := 2
  max_backoff : ℚ := 300
  request_history : String → List ℚ
  failure_counts : String → ℕ
  backoff_until : String → Option ℚ
  global_request_times : List ℚ
  global_failure_count : ℕ
  global_backoff_until : Option ℚ

/-- `RateLimiter._get_client_key` (rate_limiter.py:39-41). -/
def get_client_key (client_ip endpoint : String) : String :=
  client_ip ++ ":" ++ endpoint

/-- `RateLimiter._clean_old_requests` (rate_limiter.py:43-47) with the
default 60-second window: pop entries older than `now - 60` from the
front of the deque. -/
def clean_old_requests (request_times : List ℚ) (now : ℚ) : List ℚ :=
  request_times.dropWhile (fun t => decide (t < now - 60))

/-- The decision block of `check_rate_limit` (rate_limiter.py:90-110),
evaluated after the windows have been pruned: burst ceiling first (flat
60s retry-after), then the per-minute ceiling (`60 − (now − oldest)`,
floored at 1), then for external traffic the global 20/min ceiling with
the same formula.  Python indexes `client_requests[0]` on a window whose
length is at least the (positive) ceiling, rendered with `headD 0`. -/
def rateDecision (rl : RateLimiter) (client_requests : List ℚ)
    (is_external_api : Bool) (now : ℚ) : Bool × Option ℚ :=
  if rl.burst_limit ≤ client_requests.length then (false, some 60)
  else if rl.requests_per_minute ≤ client_requests.length then
    (false, some (max (60 - (now - client_requests.headD 0)) 1))
  else if is_external_api && decide (20 ≤ rl.global_request_times.length)
  then
    (false, some (max (60 - (now - rl.global_request_times.headD 0)) 1))
  else (true, none)

/-- The pruning phase of `check_rate_limit` (rate_limiter.py:83-88)
followed by the decision block: the caller's window is pruned in place,
the global window too when the traffic is external. -/
def checkWindows (rl : RateLimiter) (client_key : String)
    (is_external_api : Bool) (now : ℚ) : RateLimiter × Bool × Option ℚ :=
  let client_requests := clean_old_requests (rl.request_history client_key)
    now
  let rl1 := { rl with request_history := fun k =>
      if k = client_key then client_requests else rl.request_history k }
  let rl2 := cond is_external_api
    { rl1 with global_request_times :=
        clean_old_requests rl1.global_request_times now }
    rl1
  (rl2, rateDecision rl2 client_requests is_external_api now)

/-- The client-backoff phase of `check_rate_limit`
(rate_limiter.py:73-81): an unexpired backoff denies with its remaining
cooldown; an expired one is deleted and the failure count reset before
falling through to the window checks. -/
def checkClientBackoff (rl : RateLimiter) (client_key : String)
    (is_external_api : Bool) (now : ℚ) : RateLimiter × Bool × Option ℚ :=
  match rl.backoff_until client_key with
  | some b =>
    if now < b then (rl, false, some (b - now))
    else
      checkWindows
        { rl with
          backoff_until := fun k =>
            if k = client_key then none else rl.backoff_until k,
          failure_counts := fun k =>
            if k = client_key then 0 else rl.failure_counts k }
        client_key is_external_api now
  | none => checkWindows rl client_key is_external_api now

/-- `RateLimiter.check_rate_limit` (rate_limiter.py:49-110).  The global
backoff is consulted only when `is_external_api` holds: unexpired denies
with the remaining cooldown, expired resets the global backoff and
failure count. -/
def check_rate_limit (rl : RateLimiter) (client_ip endpoint : String)
    (is_external_api : Bool) (now : ℚ) : RateLimiter × Bool × Option ℚ :=
  let client_key := get_client_key client_ip endpoint
  match is_external_api, rl.global_backoff_until with
  | true, some gbu =>
    if now < gbu then (rl, false, some (gbu - now))
    else
      checkClientBackoff
        { rl with global_backoff_until := none, global_failure_count := 0 }
        client_key is_external_api now
  | _, _ => checkClientBackoff rl client_key is_external_api now

/-- `RateLimiter.record_request` (rate_limiter.py:112-125): append `now`
to the caller's window, and to the global window for external traffic. -/
def record_request (rl : RateLimiter) (client_ip endpoint : String)
    (is_external_api : Bool) (now : ℚ) : RateLimiter :=
  let client_key := get_client_key client_ip endpoint
  let rl1 := { rl with request_history := fun k =>
      if k = client_key then rl.request_history client_key ++ [now]
      else rl.request_history k }
  cond is_external_api
    { rl1 with global_request_times := rl1.global_request_times ++ [now] }
    rl1

/-- A limiter state with an active global backoff until `t = 1000` and no
other traffic recorded. -/
def rlGlobalBackoff : RateLimiter :=
  { request_history := fun _ => [], failure_counts := fun _ => 0,
    backoff_until := fun _ => none, global_request_times := [],
    global_failure_count := 0, global_backoff_until := some 1000 }

/-- C5 is false as stated: at time `100`, with a global backoff unexpired
until `1000`, a check for traffic *not* marked external is allowed —
the global-backoff gate (rate_limiter.py:64) is guarded by
`is_external_api`, so the denial does not apply to every caller. -/
theorem global_backoff_nonexternal_counterexample :
    rlGlobalBackoff.global_backoff_until = some 1000 ∧ (100 : ℚ) < 1000 ∧
    (check_rate_limit rlGlobalBackoff "1.2.3.4" "search" false 100).2 =
      (true, none) :=
  ⟨rfl, by norm_num, rfl⟩

/-- C5 amended: every check for traffic marked external, made while a
global backoff is set and unexpired, is denied with the remaining global
cooldown (and the limiter state is untouched). -/
theorem global_backoff_blocks_external (rl : RateLimiter)
    (client_ip endpoint : String) (now gbu : ℚ)
    (hg : rl.global_backoff_until = some gbu) (hun : now < gbu) :
    check_rate_limit rl client_ip endpoint true now =
      (rl, false, some (gbu - now)) := by
  unfold check_rate_limit
  rw [hg]
  dsimp only
  rw [if_pos hun]

/-- A concrete instantiation of the amended C5: external traffic checked
at time `100` under a global backoff until `1000` is denied with
`retry_after = 900`. -/
theorem global_backoff_blocks_external_witness :
    check_rate_limit rlGlobalBackoff "1.2.3.4" "search" true 100 =
      (rlGlobalBackoff, false, some 900) := by
  have h := global_backoff_blocks_external rlGlobalBackoff "1.2.3.4"
    "search" 100 1000 rfl (by norm_num)
  rw [h]
  norm_num

/-- The burst branch of the decision (rate_limiter.py:91-92), isolated:
with no backoff active, a pruned window at or past the burst ceiling is
denied with a flat 60-second retry-after, whatever the per-minute ceiling
would have said. -/
lemma check_burst_deny (rl : RateLimiter)
    (client_ip endpoint : String) (ext : Bool) (now : ℚ)
    (hg : rl.global_backoff_until = none)
    (hcb : rl.backoff_until (get_client_key client_ip endpoint) = none)
    (hburst : rl.burst_limit ≤
      (clean_old_requests (rl.request_history
        (get_client_key client_ip endpoint)) now).length) :
    (check_rate_limit rl client_ip endpoint ext now).2 =
      (false, some 60) := by
  unfold check_rate_limit
  rw [hg]
  cases ext <;>
    (dsimp only
     unfold checkClientBackoff
     rw [hcb]
     dsimp only
     unfold checkWindows
     dsimp only
     unfold rateDecision
     try dsimp only [Bool.cond_true, Bool.cond_false]
     rw [if_pos hburst])

/-- A limiter whose caller `"9.9.9.9"`/`"search"` has exactly reached the
per-minute ceiling of 3 with a window `[70, 80, 90]`, under a burst
ceiling of 2 — the same shape as the default configuration, where the
burst ceiling (10) lies below the per-minute ceiling (60). -/
def rlSteady : RateLimiter :=
  { requests_per_minute := 3, burst_limit := 2,
    request_history := fun k => if k = "9.9.9.9:search" then [70, 80, 90]
      else [],
    failure_counts := fun _ => 0, backoff_until := fun _ => none,
    global_request_times := [], global_failure_count := 0,
    global_backoff_until := none }

/-- C3 is false as stated: this caller's window has reached the steady
per-minute ceiling (3 entries, no backoff active), the oldest request is
30 seconds old, yet the check returns `retry_after = 60`, not
`60 − 30 = 30` — the burst check (rate_limiter.py:91) is evaluated first
and returns a flat 60 seconds, so the claimed formula governs only a
window still below the burst ceiling. -/
theorem per_minute_retry_after_counterexample :
    (clean_old_requests (rlSteady.request_history
        (get_client_key "9.9.9.9" "search")) 100).length =
      rlSteady.requests_per_minute ∧
    rlSteady.backoff_until (get_client_key "9.9.9.9" "search") = none ∧
    rlSteady.global_backoff_until = none ∧
    (clean_old_requests (rlSteady.request_history
        (get_client_key "9.9.9.9" "search")) 100).headD 0 = 70 ∧
    (check_rate_limit rlSteady "9.9.9.9" "search" false 100).2 =
      (false, some 60) ∧
    (some (60 : ℚ) ≠ some (max (60 - ((100 : ℚ) - 70)) 1)) := by
  have hh : rlSteady.request_history (get_client_key "9.9.9.9" "search") =
      [70, 80, 90] := rfl
  have hclean : clean_old_requests (rlSteady.request_history
      (get_client_key "9.9.9.9" "search")) 100 = [70, 80, 90] := by
    rw [hh]
    norm_num [clean_old_requests, List.dropWhile_cons]
  refine ⟨?_, rfl, rfl, ?_, ?_, by norm_num⟩
  · rw [hclean]
    rfl
  · rw [hclean]
    rfl
  · refine check_burst_deny rlSteady "9.9.9.9" "search" false 100 rfl rfl ?_
    rw [hclean]
    decide

/-- C3 amended: when the caller's pruned window has reached the
per-minute ceiling but is still below the burst ceiling (which the code
checks first), and no backoff is active, the check denies with
`retry_after = max (60 − (now − oldest_in_window)) 1`. -/
theorem per_minute_retry_after (rl : RateLimiter)
    (client_ip endpoint : String) (ext : Bool) (now : ℚ)
    (hg : rl.global_backoff_until = none)
    (hcb : rl.backoff_until (get_client_key client_ip endpoint) = none)
    (hmin : rl.requests_per_minute ≤
      (clean_old_requests (rl.request_history
        (get_client_key client_ip endpoint)) now).length)
    (hburst : (clean_old_requests (rl.request_history
        (get_client_key client_ip endpoint)) now).length < rl.burst_limit) :
    (check_rate_limit rl client_ip endpoint ext now).2 =
      (false, some (max (60 - (now - (clean_old_requests
        (rl.request_history (get_client_key client_ip endpoint))
          now).headD 0)) 1)) := by
  unfold check_rate_limit
  rw [hg]
  cases ext <;>
    (dsimp only
     unfold checkClientBackoff
     rw [hcb]
     dsimp only
     unfold checkWindows
     dsimp only
     unfold rateDecision
     try dsimp only [Bool.cond_true, Bool.cond_false]
     rw [if_neg (not_le.mpr hburst), if_pos hmin])

/-- A limiter with per-minute ceiling 2 below the burst ceiling 100,
whose caller `"8.8.8.8"`/`"search"` has a window `[70, 80]`. -/
def rlSmall : RateLimiter :=
  { requests_per_minute := 2, burst_limit := 100,
    request_history := fun k => if k = "8.8.8.8:search" then [70, 80]
      else [],
    failure_counts := fun _ => 0, backoff_until := fun _ => none,
    global_request_times := [], global_failure_count := 0,
    global_backoff_until := none }

/-- A concrete instantiation of the amended C3: ceiling 2, burst ceiling
100, window `[70, 80]` at time `100` — denied with
`retry_after = max (60 − 30) 1 = 30`. -/
theorem per_minute_retry_after_witness :
    (check_rate_limit rlSmall "8.8.8.8" "search" false 100).2 =
      (false, some 30) := by
  have hh : rlSmall.request_history (get_client_key "8.8.8.8" "search") =
      [70, 80] := rfl
  have hclean : clean_old_requests (rlSmall.request_history
      (get_client_key "8.8.8.8" "search")) 100 = [70, 80] := by
    rw [hh]
    norm_num [clean_old_requests, List.dropWhile_cons]
  have h := per_minute_retry_after rlSmall "8.8.8.8" "search" false 100
    rfl rfl (by rw [hclean]; decide) (by rw [hclean]; decide)
  rw [h, hclean]
  norm_num [List.headD_cons]

lemma checkWindows_history_k (rl : RateLimiter) (ck : String) (ext : Bool)
    (now : ℚ) (k : String) :
    (checkWindows rl ck ext now).1.request_history k =
      if k = ck then clean_old_requests (rl.request_history ck) now
      else rl.request_history k := by
  cases ext <;> rfl

lemma checkWindows_backoff_k (rl : RateLimiter) (ck : String) (ext : Bool)
    (now : ℚ) (k : String) :
    (checkWindows rl ck ext now).1.backoff_until k = rl.backoff_until k := by
  cases ext <;> rfl

lemma checkWindows_global (rl : RateLimiter) (ck : String) (ext : Bool)
    (now : ℚ) :
    (checkWindows rl ck ext now).1.global_request_times =
      cond ext (clean_old_requests rl.global_request_times now)
        rl.global_request_times := by
  cases ext <;> rfl

lemma checkClientBackoff_history_k (rl : RateLimiter) (ck : String)
    (ext : Bool) (now : ℚ) (k : String) :
    (checkClientBackoff rl ck ext now).1.request_history k <:+
      rl.request_history k := by
  unfold checkClientBackoff
  cases hb : rl.backoff_until ck with
  | some b =>
    dsimp only
    by_cases hnb : now < b
    · rw [if_pos hnb]
    · rw [if_neg hnb, checkWindows_history_k]
      by_cases hk : k = ck
      · rw [if_pos hk, hk]
        exact List.dropWhile_suffix _
      · rw [if_neg hk]
  | none =>
    dsimp only
    rw [checkWindows_history_k]
    by_cases hk : k = ck
    · rw [if_pos hk, hk]
      exact List.dropWhile_suffix _
    · rw [if_neg hk]

lemma checkClientBackoff_global (rl : RateLimiter) (ck : String)
    (ext : Bool) (now : ℚ) :
    (checkClientBackoff rl ck ext now).1.global_request_times <:+
      rl.global_request_times := by
  unfold checkClientBackoff
  cases hb : rl.backoff_until ck with
  | some b =>
    dsimp only
    by_cases hnb : now < b
    · rw [if_pos hnb]
    · rw [if_neg hnb, checkWindows_global]
      cases ext
      · exact List.suffix_refl _
      · exact List.dropWhile_suffix _
  | none =>
    dsimp only
    rw [checkWindows_global]
    cases ext
    · exact List.suffix_refl _
    · exact List.dropWhile_suffix _

lemma checkClientBackoff_backoff_k (rl : RateLimiter) (ck : String)
    (ext : Bool) (now : ℚ) (k : String) :
    (checkClientBackoff rl ck ext now).1.backoff_until k =
        rl.backoff_until k ∨
    (checkClientBackoff rl ck ext now).1.backoff_until k = none := by
  unfold checkClientBackoff
  cases hb : rl.backoff_until ck with
  | some b =>
    dsimp only
    by_cases hnb : now < b
    · rw [if_pos hnb]
      exact Or.inl rfl
    · rw [if_neg hnb, checkWindows_backoff_k]
      dsimp only
      by_cases hk : k = ck
      · rw [if_pos hk]
        exact Or.inr rfl
      · rw [if_neg hk]
        exact Or.inl rfl
  | none =>
    dsimp only
    rw [checkWindows_backoff_k]
    exact Or.inl rfl

lemma check_rate_limit_history_k (rl : RateLimiter) (ip ep : String)
    (ext : Bool) (now : ℚ) (k : String) :
    (check_rate_limit rl ip ep ext now).1.request_history k <:+
      rl.request_history k := by
  unfold check_rate_limit
  cases hg : rl.global_backoff_until with
  | none =>
    cases ext <;> (dsimp only; exact checkClientBackoff_history_k _ _ _ _ _)
  | some gbu =>
    cases ext
    · dsimp only
      exact checkClientBackoff_history_k _ _ _ _ _
    · dsimp only
      by_cases hnb : now < gbu
      · rw [if_pos hnb]
      · rw [if_neg hnb]
        exact checkClientBackoff_history_k _ _ _ _ _

lemma check_rate_limit_global (rl : RateLimiter) (ip ep : String)
    (ext : Bool) (now : ℚ) :
    (check_rate_limit rl ip ep ext now).1.global_request_times <:+
      rl.global_request_times := by
  unfold check_rate_limit
  cases hg : rl.global_backoff_until with
  | none =>
    cases ext <;> (dsimp only; exact checkClientBackoff_global _ _ _ _)
  | some gbu =>
    cases ext
    · dsimp only
      exact checkClientBackoff_global _ _ _ _
    · dsimp only
      by_cases hnb : now < gbu
      · rw [if_pos hnb]
      · rw [if_neg hnb]
        exact checkClientBackoff_global _ _ _ _

lemma check_rate_limit_backoff_k (rl : RateLimiter) (ip ep : String)
    (ext : Bool) (now : ℚ) (k : String) :
    (check_rate_limit rl ip ep ext now).1.backoff_until k =
        rl.backoff_until k ∨
    (check_rate_limit rl ip ep ext now).1.backoff_until k = none := by
  unfold check_rate_limit
  cases hg : rl.global_backoff_until with
  | none =>
    cases ext <;> (dsimp only; exact checkClientBackoff_backoff_k _ _ _ _ _)
  | some gbu =>
    cases ext
    · dsimp only
      exact checkClientBackoff_backoff_k _ _ _ _ _
    · dsimp only
      by_cases hnb : now < gbu
      · rw [if_pos hnb]
        exact Or.inl rfl
      · rw [if_neg hnb]
        exact checkClientBackoff_backoff_k _ _ _ _ _

lemma record_request_history (rl : RateLimiter) (ip ep : String)
    (ext : Bool) (now : ℚ) (k : String) :
    (record_request rl ip ep ext now).request_history k =
      if k = get_client_key ip ep then
        rl.request_history (get_client_key ip ep) ++ [now]
      else rl.request_history k := by
  cases ext <;> rfl

/-- C10: a `check_rate_limit` call never appends a timestamp to any
caller window or to the global window — every window of the post-check
state is a suffix of the corresponding pre-check window (so lengths can
only shrink under the 60-second pruning), and per-caller backoff entries
are either untouched or cleared, never set; timestamps are appended only
by `record_request`, which extends exactly the calling client's window
(and the global one when external) by `now`. -/
theorem check_windows_only_shrink :
    (∀ (rl : RateLimiter) (ip ep : String) (ext : Bool) (now : ℚ)
       (k : String),
      (check_rate_limit rl ip ep ext now).1.request_history k <:+
        rl.request_history k ∧
      ((check_rate_limit rl ip ep ext now).1.request_history k).length ≤
        (rl.request_history k).length) ∧
    (∀ (rl : RateLimiter) (ip ep : String) (ext : Bool) (now : ℚ),
      (check_rate_limit rl ip ep ext now).1.global_request_times <:+
        rl.global_request_times) ∧
    (∀ (rl : RateLimiter) (ip ep : String) (ext : Bool) (now : ℚ)
       (k : String),
      (check_rate_limit rl ip ep ext now).1.backoff_until k =
          rl.backoff_until k ∨
      (check_rate_limit rl ip ep ext now).1.backoff_until k = none) ∧
    (∀ (rl : RateLimiter) (ip ep : String) (ext : Bool) (now : ℚ)
       (k : String),
      (record_request rl ip ep ext now).request_history k =
        if k = get_client_key ip ep then
          rl.request_history (get_client_key ip ep) ++ [now]
        else rl.request_history k) :=
  ⟨fun rl ip ep ext now k =>
    ⟨check_rate_limit_history_k rl ip ep ext now k,
     (check_rate_limit_history_k rl ip ep ext now k).length_le⟩,
   fun rl ip ep ext now => check_rate_limit_global rl ip ep ext now,
   fun rl ip ep ext now k => check_rate_limit_backoff_k rl ip ep ext now k,
   fun rl ip ep ext now k => record_request_history rl ip ep ext now k⟩

/-! ## Request queue (`RequestQueue`, rate_limiter.py:192-220) -/

/-- Where a task of `execute_request` stands: waiting before the
semaphore, admitted holding a permit (remembering the
`last_request_time` value it read for the spacing computation, since the
shared field may change before it dispatches), dispatched into the
wrapped call, or finished. -/
inductive TaskPhase where
  | pending
  | gated (readLast : ℚ)
  | running
  | done
deriving DecidableEq

/-- Scheduler events of the cooperative event-loop model: the clock
advances, a task acquires a semaphore permit, a task performs its
dispatch (after any spacing sleep), a task's wrapped call completes —
returning (`ok = true`) or raising (`ok = false`). -/
inductive QAction where
  | tick (dt : ℚ)
  | acquire (i : ℕ)
  | dispatch (i : ℕ)
  | complete (i : ℕ) (ok : Bool)
deriving DecidableEq

/-- Shared state of a `RequestQueue` together with the in-flight tasks:
`sem` counts free permits of `asyncio.Semaphore(max_concurrent)`,
`last_request_time` starts at `0` (rate_limiter.py:201), `dispatches`
logs the instants at which the wrapped call was entered, in order. -/
structure QState where
  max_concurrent : ℕ
  request_delay : ℚ
  sem : ℕ
  last_request_time : ℚ
  time : ℚ
  tasks : List TaskPhase
  dispatches : List ℚ
deriving DecidableEq

/-- One scheduler step of `execute_request` (rate_limiter.py:203-220).
Admission reads the shared `last_request_time` into the task
(rate_limiter.py:209-210); the task may dispatch at any instant `t` with
`readLast + request_delay ≤ t` — exactly the instants reachable in the
code, which sleeps `request_delay - (now - last_request_time)` when that
gap is still open and otherwise proceeds at once; completion sets
`last_request_time` to the current time and frees the permit whether the
wrapped call returned or raised (rate_limiter.py:215-220). -/
def qstep (s : QState) : QAction → Option QState
  | .tick dt => if 0 ≤ dt then some { s with time := s.time + dt } else none
  | .acquire i =>
    match s.tasks.get? i with
    | some .pending =>
      if 0 < s.sem then
        some { s with
          sem := s.sem - 1,
          tasks := s.tasks.set i (.gated s.last_request_time) }
      else none
    | _ => none
  | .dispatch i =>
    match s.tasks.get? i with
    | some (.gated r) =>
      if r + s.request_delay ≤ s.time then
        some { s with
          tasks := s.tasks.set i .running,
          dispatches := s.dispatches ++ [s.time] }
      else none
    | _ => none
  | .complete i _ =>
    match s.tasks.get? i with
    | some .running =>
      some { s with
        tasks := s.tasks.set i .done,
        last_request_time := s.time,
        sem := s.sem + 1 }
    | _ => none

/-- Run a sequence of scheduler events. -/
def runQ (s : QState) : List QAction → Option QState
  | [] => some s
  | a :: rest =>
    match qstep s a with
    | some s1 => runQ s1 rest
    | none => none

/-- A fresh `RequestQueue(max_concurrent = N, request_delay = d)` at
wall-clock `t0` with `k` tasks about to call `execute_request`. -/
def initQ (N : ℕ) (d : ℚ) (k : ℕ) (t0 : ℚ) : QState :=
  { max_concurrent := N, request_delay := d, sem := N,
    last_request_time := 0, time := t0,
    tasks := List.replicate k .pending, dispatches := [] }

/-- A task holding a semaphore permit (admitted or dispatched). -/
def isHolder : TaskPhase → Bool
  | .gated _ => true
  | .running => true
  | _ => false

/-- A task whose wrapped call is in flight. -/
def isRunning : TaskPhase → Bool
  | .running => true
  | _ => false

/-- The semaphore invariant: free permits plus permit holders equal
`max_concurrent`. -/
def QInv (s : QState) : Prop :=
  s.sem + s.tasks.countP isHolder = s.max_concurrent ∧
  s.max_concurrent = s.max_concurrent

lemma qstep_inv (s : QState) (a : QAction) (s1 : QState)
    (h : qstep s a = some s1)
    (hinv : s.sem + s.tasks.countP isHolder = s.max_concurrent) :
    s1.sem + s1.tasks.countP isHolder = s1.max_concurrent ∧
    s1.max_concurrent = s.max_concurrent := by
  cases a with
  | tick dt =>
    unfold qstep at h
    dsimp only at h
    by_cases hdt : 0 ≤ dt
    · rw [if_pos hdt] at h
      cases h
      exact ⟨hinv, rfl⟩
    · rw [if_neg hdt] at h
      exact absurd h (by simp)
  | acquire i =>
    unfold qstep at h
    dsimp only at h
    cases hg : s.tasks.get? i with
    | some ph =>
      rw [hg] at h
      cases ph with
      | pending =>
        dsimp only at h
        by_cases hs : 0 < s.sem
        · rw [if_pos hs] at h
          cases h
          obtain ⟨hlt, hget⟩ := List.get?_eq_some.mp hg
          have hel : s.tasks[i] = TaskPhase.pending :=
            (List.get_eq_getElem s.tasks ⟨i, hlt⟩).symm.trans hget
          have hcount := List.countP_set isHolder s.tasks i
            (.gated s.last_request_time) hlt
          rw [hel] at hcount
          rw [show (if isHolder TaskPhase.pending = true then 1 else 0) = 0
              from rfl,
            show (if isHolder (TaskPhase.gated s.last_request_time) = true
                then 1 else 0) = 1 from rfl] at hcount
          dsimp only
          rw [hcount]
          omega
        · rw [if_neg hs] at h
          exact absurd h (by simp)
      | gated r => simp at h
      | running => simp at h
      | done => simp at h
    | none =>
      rw [hg] at h
      simp at h
  | dispatch i =>
    unfold qstep at h
    dsimp only at h
    cases hg : s.tasks.get? i with
    | some ph =>
      rw [hg] at h
      cases ph with
      | gated r =>
        dsimp only at h
        by_cases ht : r + s.request_delay ≤ s.time
        · rw [if_pos ht] at h
          cases h
          obtain ⟨hlt, hget⟩ := List.get?_eq_some.mp hg
          have hel : s.tasks[i] = TaskPhase.gated r :=
            (List.get_eq_getElem s.tasks ⟨i, hlt⟩).symm.trans hget
          have hcount := List.countP_set isHolder s.tasks i .running hlt
          rw [hel] at hcount
          rw [show (if isHolder (TaskPhase.gated r) = true then 1 else 0) = 1
              from rfl,
            show (if isHolder TaskPhase.running = true then 1 else 0) = 1
              from rfl] at hcount
          have hpos : 0 < s.tasks.countP isHolder := by
            rw [List.countP_pos_iff]
            exact ⟨TaskPhase.gated r, hel ▸ List.getElem_mem hlt, rfl⟩
          dsimp only
          rw [hcount]
          omega
        · rw [if_neg ht] at h
          exact absurd h (by simp)
      | pending => simp at h
      | running => simp at h
      | done => simp at h
    | none =>
      rw [hg] at h
      simp at h
  | complete i ok =>
    unfold qstep at h
    dsimp only at h
    cases hg : s.tasks.get? i with
    | some ph =>
      rw [hg] at h
      cases ph with
      | running =>
        dsimp only at h
        cases h
        obtain ⟨hlt, hget⟩ := List.get?_eq_some.mp hg
        have hel : s.tasks[i] = TaskPhase.running :=
          (List.get_eq_getElem s.tasks ⟨i, hlt⟩).symm.trans hget
        have hpos : 0 < s.tasks.countP isHolder := by
          rw [List.countP_pos_iff]
          exact ⟨TaskPhase.running, hel ▸ List.getElem_mem hlt, rfl⟩
        have hcount := List.countP_set isHolder s.tasks i .done hlt
        rw [hel] at hcount
        rw [show (if isHolder TaskPhase.running = true then 1 else 0) = 1
            from rfl,
          show (if isHolder TaskPhase.done = true then 1 else 0) = 0
            from rfl] at hcount
        dsimp only
        rw [hcount]
        omega
      | pending => simp at h
      | gated r => simp at h
      | done => simp at h
    | none =>
      rw [hg] at h
      simp at h

lemma runQ_inv (tr : List QAction) (s s1 : QState)
    (h : runQ s tr = some s1)
    (hinv : s.sem + s.tasks.countP isHolder = s.max_concurrent) :
    s1.sem + s1.tasks.countP isHolder = s1.max_concurrent := by
  induction tr generalizing s with
  | nil =>
    unfold runQ at h
    cases h
    exact hinv
  | cons a rest ih =>
    unfold runQ at h
    cases hs : qstep s a with
    | some s2 =>
      rw [hs] at h
      dsimp only at h
      exact ih s2 h (qstep_inv s a s2 hs hinv).1
    | none =>
      rw [hs] at h
      simp at h

lemma runQ_max (tr : List QAction) (s s1 : QState)
    (h : runQ s tr = some s1) : s1.max_concurrent = s.max_concurrent := by
  induction tr generalizing s with
  | nil =>
    unfold runQ at h
    cases h
    rfl
  | cons a rest ih =>
    unfold runQ at h
    cases hs : qstep s a with
    | some s2 =>
      rw [hs] at h
      dsimp only at h
      calc s1.max_concurrent = s2.max_concurrent := ih s2 h
        _ = s.max_concurrent := by
          cases a with
          | tick dt =>
            unfold qstep at hs
            dsimp only at hs
            by_cases hdt : 0 ≤ dt
            · rw [if_pos hdt] at hs
              cases hs
              rfl
            · rw [if_neg hdt] at hs
              exact absurd hs (by simp)
          | acquire i =>
            unfold qstep at hs
            dsimp only at hs
            cases hg : s.tasks.get? i with
            | some ph =>
              rw [hg] at hs
              cases ph with
              | pending =>
                dsimp only at hs
                by_cases h0 : 0 < s.sem
                · rw [if_pos h0] at hs
                  cases hs
                  rfl
                · rw [if_neg h0] at hs
                  exact absurd hs (by simp)
              | gated r => simp at hs
              | running => simp at hs
              | done => simp at hs
            | none =>
              rw [hg] at hs
              simp at hs
          | dispatch i =>
            unfold qstep at hs
            dsimp only at hs
            cases hg : s.tasks.get? i with
            | some ph =>
              rw [hg] at hs
              cases ph with
              | gated r =>
                dsimp only at hs
                by_cases ht : r + s.request_delay ≤ s.time
                · rw [if_pos ht] at hs
                  cases hs
                  rfl
                · rw [if_neg ht] at hs
                  exact absurd hs (by simp)
              | pending => simp at hs
              | running => simp at hs
              | done => simp at hs
            | none =>
              rw [hg] at hs
              simp at hs
          | complete i ok =>
            unfold qstep at hs
            dsimp only at hs
            cases hg : s.tasks.get? i with
            | some ph =>
              rw [hg] at hs
              cases ph with
              | running =>
                dsimp only at hs
                cases hs
                rfl
              | pending => simp at hs
              | gated r => simp at hs
              | done => simp at hs
            | none =>
              rw [hg] at hs
              simp at hs
    | none =>
      rw [hs] at h
      simp at h

/-- The interleaving refuting the spacing guarantee, exactly as the
event loop would run it: task 0 admits and dispatches at time 100; a
tenth of a second later task 1 admits — still reading
`last_request_time = 0`, since that field is only written back when a
call completes — computes a huge `time_since_last`, skips the sleep and
dispatches at 100.1. -/
def qsTrace : List QAction :=
  [.acquire 0, .dispatch 0, .tick (1/10), .acquire 1, .dispatch 1]

/-- State after task 0 admits at time 100, reading
`last_request_time = 0`. -/
def qs2 : QState :=
  ⟨5, 1/2, 4, 0, 100, [.gated 0, .pending], []⟩

/-- State after task 0 dispatches at time 100. -/
def qs3 : QState :=
  ⟨5, 1/2, 4, 0, 100, [.running, .pending], [100]⟩

/-- State after task 1 admits at time 100.1, also reading the stale
`last_request_time = 0`. -/
def qs3b : QState :=
  ⟨5, 1/2, 3, 0, 100 + 1/10, [.running, .gated 0], [100]⟩

/-- State after task 1 dispatches at time 100.1: two dispatches a tenth
of a second apart under a half-second spacing floor. -/
def qs4 : QState :=
  ⟨5, 1/2, 3, 0, 100 + 1/10, [.running, .running], [100, 100 + 1/10]⟩

/-- State after task 0's wrapped call raises: `last_request_time` is
updated and the permit freed all the same. -/
def qs5 : QState :=
  ⟨5, 1/2, 4, 100 + 1/10, 100 + 1/10, [.done, .running],
    [100, 100 + 1/10]⟩

lemma qstep_d0 : qstep qs2 (.dispatch 0) = some qs3 := by
  unfold qstep qs2
  dsimp only [List.get?]
  rw [if_pos (by norm_num : (0 : ℚ) + 1/2 ≤ 100)]
  rfl

lemma qstep_t : qstep qs3 (.tick (1/10)) =
    some ⟨5, 1/2, 4, 0, 100 + 1/10, [.running, .pending], [100]⟩ := by
  unfold qstep qs3
  dsimp only
  rw [if_pos (by norm_num : (0 : ℚ) ≤ 1/10)]

lemma qstep_d1 : qstep qs3b (.dispatch 1) = some qs4 := by
  unfold qstep qs3b
  dsimp only [List.get?]
  rw [if_pos (by norm_num : (0 : ℚ) + 1/2 ≤ 100 + 1/10)]
  rfl

lemma qrun : runQ (initQ 5 (1/2) 2 100) qsTrace = some qs4 := by
  have h1 : qstep (initQ 5 (1/2) 2 100) (.acquire 0) = some qs2 := rfl
  have h2 : qstep (⟨5, 1/2, 4, 0, 100 + 1/10, [.running, .pending],
      [100]⟩ : QState) (.acquire 1) = some qs3b := rfl
  simp only [qsTrace, runQ, h1, qstep_d0, qstep_t, h2, qstep_d1]

/-- C6 is false as stated: consecutive dispatches are not always at least
`request_delay` apart.  With `max_concurrent = 5`, `request_delay = 1/2`
and two callers arriving a tenth of a second apart against the initial
`last_request_time = 0` (rate_limiter.py:201), both tasks pass admission
and observe a stale `last_request_time` — the field is only written back
once a call completes — so neither sleeps, and the dispatches land
`1/10 < 1/2` apart: the semaphore admits up to `max_concurrent` tasks
into the spacing gate concurrently, so the gate does not serialize. -/
theorem request_queue_spacing_counterexample :
    ¬ (∀ (tr : List QAction) (s1 : QState),
        runQ (initQ 5 (1/2) 2 100) tr = some s1 →
        List.Chain' (fun a b =>
          a + (initQ 5 (1/2) 2 100).request_delay ≤ b) s1.dispatches) := by
  intro hclaim
  have hc := hclaim qsTrace qs4 qrun
  rw [show qs4.dispatches = [100, 100 + 1/10] from rfl,
    List.chain'_pair] at hc
  rw [show (initQ 5 (1/2) 2 100).request_delay = 1/2 from rfl] at hc
  norm_num at hc

/-- C6 amended: in every interleaving at most `max_concurrent` wrapped
calls are in flight at once; every dispatch happens at least
`request_delay` after the `last_request_time` value its task observed at
admission (but two overlapping admissions can observe the same stale
value, so consecutive dispatches may be closer than `request_delay`);
and completion updates `last_request_time` and frees the permit whether
the wrapped call returned or raised. -/
theorem request_queue_bounds :
    (∀ (N : ℕ) (d : ℚ) (k : ℕ) (t0 : ℚ) (tr : List QAction) (s1 : QState),
      runQ (initQ N d k t0) tr = some s1 →
      s1.tasks.countP isRunning ≤ N) ∧
    (∀ (s : QState) (i : ℕ) (s1 : QState),
      qstep s (.dispatch i) = some s1 →
      ∃ r, s.tasks.get? i = some (.gated r) ∧
        r + s.request_delay ≤ s.time ∧
        s1.dispatches = s.dispatches ++ [s.time]) ∧
    (∀ (s : QState) (i : ℕ) (ok : Bool) (s1 : QState),
      qstep s (.complete i ok) = some s1 →
      s1.last_request_time = s.time ∧ s1.sem = s.sem + 1) := by
  refine ⟨?_, ?_, ?_⟩
  · intro N d k t0 tr s1 h
    have hinv0 : (initQ N d k t0).sem +
        (initQ N d k t0).tasks.countP isHolder =
          (initQ N d k t0).max_concurrent := by
      unfold initQ
      dsimp only
      have hz : (List.replicate k TaskPhase.pending).countP isHolder = 0 := by
        rw [List.countP_eq_zero]
        intro a ha
        rw [List.eq_of_mem_replicate ha]
        simp [isHolder]
      rw [hz]
      omega
    have hfin := runQ_inv tr (initQ N d k t0) s1 h hinv0
    have hmax := runQ_max tr (initQ N d k t0) s1 h
    have hmono : s1.tasks.countP isRunning ≤ s1.tasks.countP isHolder := by
      refine List.countP_mono_left ?_
      intro x hx hr
      cases x <;> simp_all [isRunning, isHolder]
    have hN : s1.max_concurrent = N := by
      rw [hmax]
      rfl
    omega
  · intro s i s1 h
    unfold qstep at h
    dsimp only at h
    cases hg : s.tasks.get? i with
    | some ph =>
      rw [hg] at h
      cases ph with
      | gated r =>
        dsimp only at h
        by_cases ht : r + s.request_delay ≤ s.time
        · rw [if_pos ht] at h
          cases h
          exact ⟨r, rfl, ht, rfl⟩
        · rw [if_neg ht] at h
          exact absurd h (by simp)
      | pending => simp at h
      | running => simp at h
      | done => simp at h
    | none =>
      rw [hg] at h
      simp at h
  · intro s i ok s1 h
    unfold qstep at h
    dsimp only at h
    cases hg : s.tasks.get? i with
    | some ph =>
      rw [hg] at h
      cases ph with
      | running =>
        dsimp only at h
        cases h
        exact ⟨rfl, rfl⟩
      | pending => simp at h
      | gated r => simp at h
      | done => simp at h
    | none =>
      rw [hg] at h
      simp at h

/-- A concrete instantiation of the amended C6: along the refuting trace
itself at most `5` calls are ever in flight (here two), and a raising
completion (`ok = false`) still writes `last_request_time := 100` and
frees the permit. -/
theorem request_queue_bounds_witness :
    qs4.tasks.countP isRunning ≤ 5 ∧
    qs5.last_request_time = qs4.time ∧ qs5.sem = qs4.sem + 1 :=
  ⟨request_queue_bounds.1 5 (1/2) 2 100 qsTrace qs4 qrun,
   request_queue_bounds.2.2 qs4 0 false qs5 rfl⟩
